import Mathlib

/-!
Verification of the mentorship-session marketplace in `src/main.py`
(Streamlit dashboard over four MongoDB collections).

The embedding models the store as four lists of records.  Mongo ObjectIds
become `Nat`, timestamps become `Nat`, field values that may be absent on a
document become `Option`.  `find_one(filter)` becomes `List.find?` (first
match in natural order), `update_one(filter, {$set/...})` becomes
`updateFirst` (rewrite the first matching record), `insert_one` appends.
A `$inc` on a possibly-absent integer field reads the absent field as 0 and
stores the sum, matching MongoDB semantics.
-/

/-- A startup document.  Only the fields the marketplace logic touches are
modelled; the three session counters are `Option Int` because the source
documents may lack them (they are lazily backfilled, main.py lines 94-119). -/
structure Startup where
  sid : Nat
  company : String
  sessions_allotted_to_receive : Option Int
  sessions_received : Option Int
  sessions_lent : Option Int
  deriving Repr, DecidableEq

/-- A session-offer document (inserted at main.py lines 192-200). -/
structure SessionOffer where
  oid : Nat
  offering_startup_id : Nat
  offering_startup_name : String
  topic : String
  status : String
  timestamp : Nat
  claimed_by_startup_id : Option Nat
  claimed_by_startup_name : Option String
  deriving Repr, DecidableEq

/-- A session-request document (inserted at main.py lines 236-245). -/
structure SessionRequest where
  rid : Nat
  requesting_startup_id : Nat
  requesting_startup_name : String
  topic : String
  status : String
  timestamp : Nat
  fulfilled_by_offer_id : Option Nat
  fulfilled_by_startup_id : Option Nat
  fulfilled_by_startup_name : Option String
  deriving Repr, DecidableEq

/-- A session-history document (inserted at main.py lines 353-362). -/
structure HistoryEntry where
  type : String
  offer_id : Nat
  offering_startup_id : Nat
  offering_startup_name : String
  claiming_startup_id : Nat
  claiming_startup_name : String
  topic : String
  timestamp : Nat
  deriving Repr, DecidableEq

/-- The four collections of the database `prueba` (main.py lines 39-42). -/
structure Store where
  startups : List Startup
  offers : List SessionOffer
  requests : List SessionRequest
  history : List HistoryEntry
  deriving Repr, DecidableEq

/-- `update_one`: rewrite the first record matching the filter, leave all
others untouched; a filter that matches nothing is a no-op. -/
def updateFirst (p : α → Bool) (f : α → α) : List α → List α
  | [] => []
  | x :: xs => if p x then f x :: xs else x :: updateFirst p f xs

/-- Whether any of the three counter fields is absent — the `update_needed`
flag computed at main.py lines 94-103. -/
def backfillNeeded (s : Startup) : Bool :=
  s.sessions_allotted_to_receive.isNone || s.sessions_received.isNone ||
    s.sessions_lent.isNone

/-- The `$set` written at main.py lines 107-114: every absent counter gets
its default (2, 0, 0), every present counter keeps its current value. -/
def backfillStartup (s : Startup) : Startup :=
  { s with
    sessions_allotted_to_receive := some (s.sessions_allotted_to_receive.getD 2)
    sessions_received := some (s.sessions_received.getD 0)
    sessions_lent := some (s.sessions_lent.getD 0) }

/-- The session-counter initialization block, main.py lines 92-120: if any of
the three counter fields is absent on the selected startup, write all three
(absent ones at their defaults 2/0/0, present ones unchanged); otherwise issue
no write.  The `Bool` records whether an `update_one` was issued. -/
def backfillW (st : Store) (sid : Nat) : Store × Bool :=
  match st.startups.find? (fun s => s.sid == sid) with
  | none => (st, false)
  | some s =>
    if backfillNeeded s then
      ({ st with
          startups := updateFirst (fun x => x.sid == sid) backfillStartup st.startups },
        true)
    else (st, false)

/-- Outcome of the offer-session form handler. -/
inductive OfferResult where
  | created
  | ineligibleToLend
  | startupAbsent
  deriving Repr, DecidableEq

/-- The `$inc {sessions_lent: 1}` of main.py lines 203-208. -/
def incLent (s : Startup) : Startup :=
  { s with sessions_lent := some (s.sessions_lent.getD 0 + 1) }

/-- The offer-session form handler, main.py lines 176-214.  The handler looks
the startup up by id (line 182); reads the two counters with default 0
(lines 186-187); if `allotted > received` it inserts an offer with
status `available` and null claim fields (lines 192-200) and `$inc`s the
startup's `sessions_lent` (lines 203-208); otherwise it warns and writes
nothing (line 214).  A lookup miss raises before any write (`.get` on `None`),
modelled as `startupAbsent` with the store unchanged. -/
def createOffer (st : Store) (offeringId : Nat) (offeringName topic : String)
    (oid ts : Nat) : Store × OfferResult :=
  match st.startups.find? (fun s => s.sid == offeringId) with
  | none => (st, .startupAbsent)
  | some s =>
    let sessions_allotted := s.sessions_allotted_to_receive.getD 0
    let sessions_received := s.sessions_received.getD 0
    if sessions_allotted > sessions_received then
      let offer : SessionOffer :=
        { oid := oid
          offering_startup_id := offeringId
          offering_startup_name := offeringName
          topic := topic
          status := "available"
          timestamp := ts
          claimed_by_startup_id := none
          claimed_by_startup_name := none }
      ({ st with
          offers := st.offers ++ [offer]
          startups := updateFirst (fun x => x.sid == offeringId) incLent st.startups },
        .created)
    else (st, .ineligibleToLend)

/-- The request-session form handler, main.py lines 230-249: unconditionally
insert a pending request with null fulfillment fields. -/
def createRequest (st : Store) (requestingId : Nat) (requestingName topic : String)
    (rid ts : Nat) : Store :=
  { st with
    requests := st.requests ++
      [{ rid := rid
         requesting_startup_id := requestingId
         requesting_startup_name := requestingName
         topic := topic
         status := "pending"
         timestamp := ts
         fulfilled_by_offer_id := none
         fulfilled_by_startup_id := none
         fulfilled_by_startup_name := none }] }

/-- Outcome of the claim-offer button handler. -/
inductive ClaimResult where
  | claimed
  | invalidClaim
  | offerAbsentError
  deriving Repr, DecidableEq

/-- The `$set` on the claimed offer, main.py lines 317-324. -/
def setClaimed (claimingId : Nat) (claimingName : String) (o : SessionOffer) :
    SessionOffer :=
  { o with
    status := "claimed"
    claimed_by_startup_id := some claimingId
    claimed_by_startup_name := some claimingName }

/-- The `$inc {sessions_received: 1}` of main.py lines 347-350. -/
def incReceived (s : Startup) : Startup :=
  { s with sessions_received := some (s.sessions_received.getD 0 + 1) }

/-- The `find_one` filter on requests, main.py lines 328-332: the claimant's
own pending request on the offer's topic. -/
def matchesPending (claimingId : Nat) (topic : String) (r : SessionRequest) : Bool :=
  r.requesting_startup_id == claimingId && r.topic == topic && r.status == "pending"

/-- The `$set` on the fulfilled request, main.py lines 335-343. -/
def stampFulfilled (offerId : Nat) (doc : SessionOffer) (r : SessionRequest) :
    SessionRequest :=
  { r with
    status := "fulfilled"
    fulfilled_by_offer_id := some offerId
    fulfilled_by_startup_id := some doc.offering_startup_id
    fulfilled_by_startup_name := some doc.offering_startup_name }

/-- The claim-offer button handler, main.py lines 302-367.  Steps, in the
source's order:
1. `find_one` the offer document (line 311).
2. If it exists and its `offering_startup_id` equals the claimant's id,
   warn and stop: no write at all (lines 312-313).  The handler performs NO
   status check on the offer.
3. Otherwise set the offer to `claimed` with the claimant's id/name
   (lines 317-324); when the offer document is absent this `update_one`
   matches nothing, and the subsequent subscript of `None` raises inside the
   `try`, so the handler stops with an error after zero writes
   (`offerAbsentError`).
4. `find_one` a request of the claimant with the offer's topic and status
   `pending` (lines 328-332); if found, set it to `fulfilled` stamped with the
   offer's id and the offering startup's id/name (lines 334-343).
5. `$inc` the claimant's `sessions_received` (lines 347-350), unconditionally.
6. Insert one history document (lines 353-362), denormalizing the offering
   side from the offer document read in step 1. -/
def claimOffer (st : Store) (offerId claimingId : Nat) (claimingName : String)
    (ts : Nat) : Store × ClaimResult :=
  match st.offers.find? (fun o => o.oid == offerId) with
  | none => (st, .offerAbsentError)
  | some doc =>
    if doc.offering_startup_id == claimingId then (st, .invalidClaim)
    else
      let st1 : Store :=
        { st with
            offers := updateFirst (fun o => o.oid == offerId)
              (setClaimed claimingId claimingName) st.offers }
      let st2 : Store :=
        match st1.requests.find? (matchesPending claimingId doc.topic) with
        | some mr =>
          { st1 with
              requests := updateFirst (fun r => r.rid == mr.rid)
                (stampFulfilled offerId doc) st1.requests }
        | none => st1
      let st3 : Store :=
        { st2 with
            startups := updateFirst (fun x => x.sid == claimingId) incReceived
              st2.startups }
      ({ st3 with
          history := st3.history ++
            [{ type := "claimed_session"
               offer_id := offerId
               offering_startup_id := doc.offering_startup_id
               offering_startup_name := doc.offering_startup_name
               claiming_startup_id := claimingId
               claiming_startup_name := claimingName
               topic := doc.topic
               timestamp := ts }] },
        .claimed)

/-- One core operation, for reasoning about arbitrary interleavings. -/
inductive Op where
  | backfill (sid : Nat)
  | offer (offeringId : Nat) (offeringName topic : String) (oid ts : Nat)
  | request (requestingId : Nat) (requestingName topic : String) (rid ts : Nat)
  | claim (offerId claimingId : Nat) (claimingName : String) (ts : Nat)
  deriving Repr, DecidableEq

/-- Apply one core operation to the store (discarding the reported outcome). -/
def applyOp (st : Store) : Op → Store
  | .backfill sid => (backfillW st sid).1
  | .offer i n t oid ts => (createOffer st i n t oid ts).1
  | .request i n t rid ts => createRequest st i n t rid ts
  | .claim o c n ts => (claimOffer st o c n ts).1

/-- Apply a sequence of core operations left to right. -/
def applyOps (st : Store) (ops : List Op) : Store := ops.foldl applyOp st

/-! ### Concrete stores used by witnesses and counterexamples -/

/-- A startup with all three counters present. -/
def startupA : Startup :=
  { sid := 0
    company := "A"
    sessions_allotted_to_receive := some 2
    sessions_received := some 0
    sessions_lent := some 0 }

/-- A store holding just `startupA`. -/
def storeA : Store := { startups := [startupA], offers := [], requests := [], history := [] }


/-- A startup that has already received its whole allotment. -/
def startupMax : Startup :=
  { sid := 1
    company := "B"
    sessions_allotted_to_receive := some 2
    sessions_received := some 2
    sessions_lent := some 0 }

/-- A store holding just `startupMax`. -/
def storeMax : Store :=
  { startups := [startupMax], offers := [], requests := [], history := [] }

/-- A startup whose counters were never backfilled (all three fields absent). -/
def startupFresh : Startup :=
  { sid := 2
    company := "C"
    sessions_allotted_to_receive := none
    sessions_received := none
    sessions_lent := none }

/-- A store holding just `startupFresh`. -/
def storeFresh : Store :=
  { startups := [startupFresh], offers := [], requests := [], history := [] }

/-- An available offer by `startupA` on topic "Fundraising". -/
def availableOffer : SessionOffer :=
  { oid := 10
    offering_startup_id := 0
    offering_startup_name := "A"
    topic := "Fundraising"
    status := "available"
    timestamp := 0
    claimed_by_startup_id := none
    claimed_by_startup_name := none }

/-- A pending request by `startupMax` on topic "Fundraising". -/
def pendingReq : SessionRequest :=
  { rid := 20
    requesting_startup_id := 1
    requesting_startup_name := "B"
    topic := "Fundraising"
    status := "pending"
    timestamp := 0
    fulfilled_by_offer_id := none
    fulfilled_by_startup_id := none
    fulfilled_by_startup_name := none }

/-- The spec's scenario store: A offers "Fundraising", B has a pending
request on the same topic. -/
def storeScenario : Store :=
  { startups := [startupA, startupMax]
    offers := [availableOffer]
    requests := [pendingReq]
    history := [] }

/-- An offer that is already claimed (status "claimed"). -/
def claimedOffer : SessionOffer :=
  { oid := 5
    offering_startup_id := 0
    offering_startup_name := "A"
    topic := "T"
    status := "claimed"
    timestamp := 0
    claimed_by_startup_id := some 3
    claimed_by_startup_name := some "D" }

/-- A store whose only offer is already claimed. -/
def storeClaimed : Store :=
  { startups := [startupA, startupMax]
    offers := [claimedOffer]
    requests := []
    history := [] }

/-- A counter field is acceptable when it is absent or holds a non-negative
value. -/
def counterNN : Option Int → Bool
  | none => true
  | some v => decide (0 ≤ v)

/-- Every present counter of the startup is non-negative. -/
def countersOK (s : Startup) : Bool :=
  counterNN s.sessions_allotted_to_receive && counterNN s.sessions_received &&
    counterNN s.sessions_lent

/-- Evolution order on a startup record: the id never changes and no counter
field that is present ever becomes absent. -/
def presMono (a b : Startup) : Prop :=
  a.sid = b.sid ∧
  (a.sessions_allotted_to_receive.isSome → b.sessions_allotted_to_receive.isSome) ∧
  (a.sessions_received.isSome → b.sessions_received.isSome) ∧
  (a.sessions_lent.isSome → b.sessions_lent.isSome)

/-! ### Generic lemmas about `updateFirst` -/

theorem find?_updateFirst {α} {p : α → Bool} {f : α → α}
    (hf : ∀ x, p (f x) = p x) {l : List α} {s : α} (h : l.find? p = some s) :
    (updateFirst p f l).find? p = some (f s) := by
  induction l with
  | nil => cases h
  | cons x xs ih =>
    cases hp : p x with
    | true =>
      rw [List.find?_cons_of_pos _ hp] at h
      cases h
      simpa [updateFirst, hp] using List.find?_cons_of_pos xs (by rw [hf]; exact hp)
    | false =>
      rw [List.find?_cons_of_neg _ (by simp [hp])] at h
      simp only [updateFirst, hp, Bool.false_eq_true, if_false]
      rw [List.find?_cons_of_neg _ (by simp [hp])]
      exact ih h

theorem mem_updateFirst {α} {p : α → Bool} {f : α → α} {l : List α} {y : α}
    (h : y ∈ updateFirst p f l) : y ∈ l ∨ ∃ x, x ∈ l ∧ y = f x := by
  induction l with
  | nil => cases h
  | cons x xs ih =>
    cases hp : p x with
    | true =>
      simp only [updateFirst, hp, if_true] at h
      rcases List.mem_cons.mp h with h | h
      · exact Or.inr ⟨x, List.mem_cons_self x xs, h⟩
      · exact Or.inl (List.mem_cons_of_mem _ h)
    | false =>
      simp only [updateFirst, hp, Bool.false_eq_true, if_false] at h
      rcases List.mem_cons.mp h with h | h
      · exact Or.inl (h ▸ List.mem_cons_self x xs)
      · rcases ih h with h | ⟨z, hz, hy⟩
        · exact Or.inl (List.mem_cons_of_mem _ h)
        · exact Or.inr ⟨z, List.mem_cons_of_mem _ hz, hy⟩

theorem forall₂_self {α} {R : α → α → Prop} (hr : ∀ x, R x x) :
    ∀ l : List α, List.Forall₂ R l l
  | [] => List.Forall₂.nil
  | x :: xs => List.Forall₂.cons (hr x) (forall₂_self hr xs)

theorem forall₂_updateFirst {α} {R : α → α → Prop} {p : α → Bool} {f : α → α}
    (hr : ∀ x, R x x) (hf : ∀ x, p x = true → R x (f x)) (l : List α) :
    List.Forall₂ R l (updateFirst p f l) := by
  induction l with
  | nil => exact List.Forall₂.nil
  | cons x xs ih =>
    cases hp : p x with
    | true =>
      simp only [updateFirst, hp, if_true]
      exact List.Forall₂.cons (hf x hp) (forall₂_self hr xs)
    | false =>
      simp only [updateFirst, hp, Bool.false_eq_true, if_false]
      exact List.Forall₂.cons (hr x) ih

theorem eq_of_pairwise_ne_key {α κ} (key : α → κ) {l : List α}
    (h : l.Pairwise (fun a b => key a ≠ key b)) {x y : α} (hx : x ∈ l)
    (hy : y ∈ l) (hk : key x = key y) : x = y := by
  induction l with
  | nil => cases hx
  | cons a as ih =>
    have ha := (List.pairwise_cons.mp h).1
    have has := (List.pairwise_cons.mp h).2
    rcases List.mem_cons.mp hx with rfl | hx'
    · rcases List.mem_cons.mp hy with rfl | hy'
      · rfl
      · exact absurd hk (ha y hy')
    · rcases List.mem_cons.mp hy with rfl | hy'
      · exact absurd hk.symm (ha x hx')
      · exact ih has hx' hy'

theorem find?_updateFirst_unique {α} {q : α → Bool} {f : α → α}
    (hf : ∀ x, q (f x) = q x) {l : List α} {x : α} (hx : x ∈ l)
    (hq : q x = true) (huniq : ∀ y ∈ l, q y = true → y = x) :
    (updateFirst q f l).find? q = some (f x) := by
  have hsome : (l.find? q).isSome := by
    rw [List.find?_isSome]
    exact ⟨x, hx, hq⟩
  obtain ⟨z, hz⟩ := Option.isSome_iff_exists.mp hsome
  have hzx : z = x :=
    huniq z (List.mem_of_find?_eq_some hz) (List.find?_some hz)
  rw [← hzx]
  exact find?_updateFirst hf hz

theorem forall₂_comp {α} {R : α → α → Prop}
    (htrans : ∀ a b c, R a b → R b c → R a c) :
    ∀ {l m n : List α}, List.Forall₂ R l m → List.Forall₂ R m n →
      List.Forall₂ R l n := by
  intro l m n h1
  induction h1 generalizing n with
  | nil => intro h2; cases h2; exact List.Forall₂.nil
  | cons hab _ ih =>
    intro h2
    cases h2 with
    | cons hbc h2 => exact List.Forall₂.cons (htrans _ _ _ hab hbc) (ih h2)

/-! ### Claim theorems -/

/-- Claim C6: the counter backfill is idempotent — on a startup whose three
counter fields are all present it performs no store write and changes
nothing; and on any startup it sets each absent counter to its default
(2, 0, 0 respectively) while preserving the values of counters already
present. -/
theorem claim_C6 (st : Store) (sid : Nat) (s : Startup)
    (h : st.startups.find? (fun x => x.sid == sid) = some s) :
    (s.sessions_allotted_to_receive.isSome → s.sessions_received.isSome →
      s.sessions_lent.isSome → backfillW st sid = (st, false)) ∧
    ∃ s', (backfillW st sid).1.startups.find? (fun x => x.sid == sid) = some s' ∧
      s'.sessions_allotted_to_receive = some (s.sessions_allotted_to_receive.getD 2) ∧
      s'.sessions_received = some (s.sessions_received.getD 0) ∧
      s'.sessions_lent = some (s.sessions_lent.getD 0) ∧
      s'.sid = s.sid ∧ s'.company = s.company := by
  have hstep : ∀ x : Startup, ((backfillStartup x).sid == sid) = (x.sid == sid) :=
    fun _ => rfl
  constructor
  · intro h1 h2 h3
    obtain ⟨va, hva⟩ := Option.isSome_iff_exists.mp h1
    obtain ⟨vr, hvr⟩ := Option.isSome_iff_exists.mp h2
    obtain ⟨vl, hvl⟩ := Option.isSome_iff_exists.mp h3
    simp [backfillW, h, backfillNeeded, hva, hvr, hvl]
  · cases hN : backfillNeeded s with
    | true =>
      refine ⟨backfillStartup s, ?_, rfl, rfl, rfl, rfl, rfl⟩
      simp only [backfillW, h, hN, if_true]
      exact find?_updateFirst hstep h
    | false =>
      have hflds : (s.sessions_allotted_to_receive.isSome = true ∧
          s.sessions_received.isSome = true) ∧ s.sessions_lent.isSome = true := by
        simpa [backfillNeeded, Bool.or_eq_false_iff] using hN
      refine ⟨s, ?_, ?_, ?_, ?_, rfl, rfl⟩
      · simp [backfillW, h, hN]
      · cases ha : s.sessions_allotted_to_receive with
        | none => rw [ha] at hflds; simp at hflds
        | some v => simp
      · cases hr : s.sessions_received with
        | none => rw [hr] at hflds; simp at hflds
        | some v => simp
      · cases hl : s.sessions_lent with
        | none => rw [hl] at hflds; simp at hflds
        | some v => simp

/-- Witness for C6: on `storeA`, whose only startup has all three counters
present, the backfill issues no write and leaves the store unchanged. -/
theorem claim_C6_witness : backfillW storeA 0 = (storeA, false) :=
  (claim_C6 storeA 0 startupA rfl).1 (by decide) (by decide) (by decide)

/-- Claim C3: CreateOffer fails with IneligibleToLend if and only if the
offering startup's `sessions_allotted_to_receive` is at most its
`sessions_received` at call time (each read with default 0, as the source
does); on that failure no offer is inserted and nothing in the store
changes. -/
theorem claim_C3 (st : Store) (offeringId : Nat) (offeringName topic : String)
    (oid ts : Nat) (s : Startup)
    (h : st.startups.find? (fun x => x.sid == offeringId) = some s) :
    ((createOffer st offeringId offeringName topic oid ts).2 =
        OfferResult.ineligibleToLend ↔
      s.sessions_allotted_to_receive.getD 0 ≤ s.sessions_received.getD 0) ∧
    ((createOffer st offeringId offeringName topic oid ts).2 =
        OfferResult.ineligibleToLend →
      (createOffer st offeringId offeringName topic oid ts).1 = st) := by
  by_cases hcmp : s.sessions_allotted_to_receive.getD 0 > s.sessions_received.getD 0
  · have hres : (createOffer st offeringId offeringName topic oid ts).2 =
        OfferResult.created := by
      simp only [createOffer, h, hcmp, if_true]
    rw [hres]
    refine ⟨⟨fun hc => absurd hc (by simp), fun hle => absurd hle (not_le.mpr hcmp)⟩,
      fun hc => absurd hc (by simp)⟩
  · have hres : createOffer st offeringId offeringName topic oid ts =
        (st, OfferResult.ineligibleToLend) := by
      simp only [createOffer, h, hcmp, if_false]
    rw [hres]
    exact ⟨⟨fun _ => not_lt.mp hcmp, fun _ => rfl⟩, fun _ => rfl⟩

/-- Witness for C3: `startupMax` (allotted 2, received 2) cannot lend — the
offer form fails with IneligibleToLend and leaves the store unchanged. -/
theorem claim_C3_witness :
    (createOffer storeMax 1 "B" "T" 7 0).2 = OfferResult.ineligibleToLend ∧
    (createOffer storeMax 1 "B" "T" 7 0).1 = storeMax := by
  have hth := claim_C3 storeMax 1 "B" "T" 7 0 startupMax rfl
  exact ⟨hth.1.mpr (by decide), hth.2 (hth.1.mpr (by decide))⟩

/-- Claim C9: the eligibility check reads absent counter fields as 0, so a
startup whose counters were never backfilled fails CreateOffer with
IneligibleToLend (0 > 0 is false), despite the documented default allotment
of 2; the store is unchanged. -/
theorem claim_C9 (st : Store) (offeringId : Nat) (offeringName topic : String)
    (oid ts : Nat) (s : Startup)
    (h : st.startups.find? (fun x => x.sid == offeringId) = some s)
    (ha : s.sessions_allotted_to_receive = none)
    (hr : s.sessions_received = none) :
    createOffer st offeringId offeringName topic oid ts =
      (st, OfferResult.ineligibleToLend) := by
  simp [createOffer, h, ha, hr]

/-- Witness for C9: the never-backfilled `startupFresh` fails to create an
offer. -/
theorem claim_C9_witness :
    createOffer storeFresh 2 "C" "T" 3 0 = (storeFresh, OfferResult.ineligibleToLend) :=
  claim_C9 storeFresh 2 "C" "T" 3 0 startupFresh rfl rfl rfl

/-- Claim C7: a successful CreateOffer inserts exactly one offer with status
"available" and null claim fields, increments the offering startup's
`sessions_lent` by exactly 1 while leaving its other fields (including
`sessions_allotted_to_receive` and `sessions_received`) unchanged, and
touches no request or history record. -/
theorem claim_C7 (st : Store) (offeringId : Nat) (offeringName topic : String)
    (oid ts : Nat) (s : Startup)
    (h : st.startups.find? (fun x => x.sid == offeringId) = some s)
    (helig : s.sessions_allotted_to_receive.getD 0 > s.sessions_received.getD 0) :
    (createOffer st offeringId offeringName topic oid ts).2 = OfferResult.created ∧
    (createOffer st offeringId offeringName topic oid ts).1.offers = st.offers ++
      [{ oid := oid
         offering_startup_id := offeringId
         offering_startup_name := offeringName
         topic := topic
         status := "available"
         timestamp := ts
         claimed_by_startup_id := none
         claimed_by_startup_name := none }] ∧
    (createOffer st offeringId offeringName topic oid ts).1.startups.find?
        (fun x => x.sid == offeringId) =
      some { s with sessions_lent := some (s.sessions_lent.getD 0 + 1) } ∧
    (createOffer st offeringId offeringName topic oid ts).1.requests = st.requests ∧
    (createOffer st offeringId offeringName topic oid ts).1.history = st.history := by
  refine ⟨?_, ?_, ?_, ?_, ?_⟩
  · simp only [createOffer, h, helig, if_true]
  · simp only [createOffer, h, helig, if_true]
  · simp only [createOffer, h, helig, if_true]
    exact find?_updateFirst (p := fun x => x.sid == offeringId) (f := incLent)
      (fun _ => rfl) h
  · simp only [createOffer, h, helig, if_true]
  · simp only [createOffer, h, helig, if_true]

/-- Witness for C7: `startupA` (allotted 2, received 0) successfully creates
an offer. -/
theorem claim_C7_witness :
    (createOffer storeA 0 "A" "Fundraising" 1 0).2 = OfferResult.created :=
  (claim_C7 storeA 0 "A" "Fundraising" 1 0 startupA rfl (by decide)).1

/-- Characterization of the claim handler on its success path: offer found
and not a self-claim.  All four collections after the handler, and the
outcome, in one equation. -/
theorem claimOffer_spec (st : Store) (offerId claimingId : Nat)
    (claimingName : String) (ts : Nat) (doc : SessionOffer)
    (hdoc : st.offers.find? (fun o => o.oid == offerId) = some doc)
    (hself : doc.offering_startup_id ≠ claimingId) :
    claimOffer st offerId claimingId claimingName ts =
      ({ startups := updateFirst (fun x => x.sid == claimingId) incReceived
            st.startups
         offers := updateFirst (fun o => o.oid == offerId)
            (setClaimed claimingId claimingName) st.offers
         requests :=
           match st.requests.find? (matchesPending claimingId doc.topic) with
           | some mr =>
             updateFirst (fun r => r.rid == mr.rid) (stampFulfilled offerId doc)
               st.requests
           | none => st.requests
         history := st.history ++
           [{ type := "claimed_session"
              offer_id := offerId
              offering_startup_id := doc.offering_startup_id
              offering_startup_name := doc.offering_startup_name
              claiming_startup_id := claimingId
              claiming_startup_name := claimingName
              topic := doc.topic
              timestamp := ts }] }, ClaimResult.claimed) := by
  have hne : (doc.offering_startup_id == claimingId) = false :=
    beq_eq_false_iff_ne.mpr hself
  simp only [claimOffer, hdoc, hne, Bool.false_eq_true, if_false]
  cases hm : st.requests.find? (matchesPending claimingId doc.topic) with
  | some mr => simp [hm]
  | none => simp [hm]

/-- Claim C1: a successful ClaimOffer (offer found, not a self-claim) sets
the offer's status to "claimed" with the claimant's id and name recorded,
appends exactly one history entry of type "claimed_session" referencing the
offer id, and increments the claiming startup's `sessions_received` by
exactly 1 — unconditionally, with no hypothesis about any matching pending
request. -/
theorem claim_C1 (st : Store) (offerId claimingId : Nat) (claimingName : String)
    (ts : Nat) (doc : SessionOffer) (s : Startup)
    (hdoc : st.offers.find? (fun o => o.oid == offerId) = some doc)
    (hself : doc.offering_startup_id ≠ claimingId)
    (hs : st.startups.find? (fun x => x.sid == claimingId) = some s) :
    (claimOffer st offerId claimingId claimingName ts).2 = ClaimResult.claimed ∧
    (∃ doc', (claimOffer st offerId claimingId claimingName ts).1.offers.find?
        (fun o => o.oid == offerId) = some doc' ∧
      doc'.status = "claimed" ∧ doc'.claimed_by_startup_id = some claimingId ∧
      doc'.claimed_by_startup_name = some claimingName) ∧
    (claimOffer st offerId claimingId claimingName ts).1.history = st.history ++
      [{ type := "claimed_session"
         offer_id := offerId
         offering_startup_id := doc.offering_startup_id
         offering_startup_name := doc.offering_startup_name
         claiming_startup_id := claimingId
         claiming_startup_name := claimingName
         topic := doc.topic
         timestamp := ts }] ∧
    ∃ s', (claimOffer st offerId claimingId claimingName ts).1.startups.find?
        (fun x => x.sid == claimingId) = some s' ∧
      s'.sessions_received = some (s.sessions_received.getD 0 + 1) := by
  rw [claimOffer_spec st offerId claimingId claimingName ts doc hdoc hself]
  refine ⟨rfl, ?_, rfl, ?_⟩
  · exact ⟨setClaimed claimingId claimingName doc,
      find?_updateFirst (p := fun o => o.oid == offerId)
        (f := setClaimed claimingId claimingName) (fun _ => rfl) hdoc,
      rfl, rfl, rfl⟩
  · exact ⟨incReceived s,
      find?_updateFirst (p := fun x => x.sid == claimingId) (f := incReceived)
        (fun _ => rfl) hs,
      rfl⟩

/-- Witness for C1: B (startup 1) claims A's available "Fundraising" offer in
the scenario store; the handler reports success. -/
theorem claim_C1_witness :
    (claimOffer storeScenario 10 1 "B" 7).2 = ClaimResult.claimed :=
  (claim_C1 storeScenario 10 1 "B" 7 availableOffer startupMax rfl (by decide)
    rfl).1

/-- Claim C4: given that the offer document exists, ClaimOffer fails with
InvalidClaim if and only if the claiming startup's id equals the offer's
`offering_startup_id`; on that failure the whole store (hence the offer) is
unchanged. -/
theorem claim_C4 (st : Store) (offerId claimingId : Nat) (claimingName : String)
    (ts : Nat) (doc : SessionOffer)
    (hdoc : st.offers.find? (fun o => o.oid == offerId) = some doc) :
    ((claimOffer st offerId claimingId claimingName ts).2 =
        ClaimResult.invalidClaim ↔ doc.offering_startup_id = claimingId) ∧
    (doc.offering_startup_id = claimingId →
      claimOffer st offerId claimingId claimingName ts =
        (st, ClaimResult.invalidClaim)) := by
  by_cases he : doc.offering_startup_id = claimingId
  · have hres : claimOffer st offerId claimingId claimingName ts =
        (st, ClaimResult.invalidClaim) := by
      simp [claimOffer, hdoc, he]
    rw [hres]
    exact ⟨⟨fun _ => he, fun _ => rfl⟩, fun _ => rfl⟩
  · rw [claimOffer_spec st offerId claimingId claimingName ts doc hdoc he]
    exact ⟨⟨fun hc => absurd hc (by simp), fun hc => absurd hc he⟩,
      fun hc => absurd hc he⟩

/-- Witness for C4: A (startup 0) tries to claim its own offer in the
scenario store; the handler fails with InvalidClaim and the store is
unchanged. -/
theorem claim_C4_witness :
    claimOffer storeScenario 10 0 "A" 7 = (storeScenario, ClaimResult.invalidClaim) :=
  (claim_C4 storeScenario 10 0 "A" 7 availableOffer rfl).2 rfl

/-- Counterexample to Claim C2 as stated: in `storeClaimed` the stored offer
with id 5 has status "claimed" (not "available"), yet claiming it as
startup 1 does NOT fail with NotFound — the handler succeeds and changes
state (one history entry is appended). -/
theorem claim_C2_counterexample :
    (storeClaimed.offers.find? (fun o => o.oid == 5)).map SessionOffer.status =
      some "claimed" ∧
    (claimOffer storeClaimed 5 1 "B" 9).2 = ClaimResult.claimed ∧
    (claimOffer storeClaimed 5 1 "B" 9).1.history.length =
      storeClaimed.history.length + 1 := by
  exact ⟨rfl, rfl, rfl⟩

/-- Claim C2 (amended): when the offer id does not resolve to a stored offer,
the handler fails (a caught exception, not a typed NotFound) and makes no
state change; the handler performs no status check, so an existing offer
whose status is not "available" is claimed like any other (no NotFound, state
changes). -/
theorem claim_C2 (st : Store) (offerId claimingId : Nat) (claimingName : String)
    (ts : Nat) :
    (st.offers.find? (fun o => o.oid == offerId) = none →
      claimOffer st offerId claimingId claimingName ts =
        (st, ClaimResult.offerAbsentError)) ∧
    (∀ doc, st.offers.find? (fun o => o.oid == offerId) = some doc →
      doc.offering_startup_id ≠ claimingId →
      (claimOffer st offerId claimingId claimingName ts).2 =
        ClaimResult.claimed) := by
  constructor
  · intro hn
    simp [claimOffer, hn]
  · intro doc hdoc hself
    rw [claimOffer_spec st offerId claimingId claimingName ts doc hdoc hself]

/-- Witness for the amended C2: `storeFresh` stores no offer with id 99, so
the claim attempt errors out leaving the store unchanged. -/
theorem claim_C2_witness :
    claimOffer storeFresh 99 2 "C" 0 = (storeFresh, ClaimResult.offerAbsentError) :=
  (claim_C2 storeFresh 99 2 "C" 0).1 rfl

/-- Claim C5: during a successful ClaimOffer, if some request of the claimant
with the offer's topic and status "pending" exists, the first such request
(arbitrary/implementation-defined among several) transitions to "fulfilled"
stamped with the offer's id and the offering startup's id and name, and no
other request is modified; if none exists, no request record is modified.
Request ids are assumed pairwise distinct, as Mongo `_id`s are. -/
theorem claim_C5 (st : Store) (offerId claimingId : Nat) (claimingName : String)
    (ts : Nat) (doc : SessionOffer)
    (hdoc : st.offers.find? (fun o => o.oid == offerId) = some doc)
    (hself : doc.offering_startup_id ≠ claimingId)
    (huniq : st.requests.Pairwise (fun a b => a.rid ≠ b.rid)) :
    (∀ mr, st.requests.find? (matchesPending claimingId doc.topic) = some mr →
      (claimOffer st offerId claimingId claimingName ts).1.requests =
        updateFirst (fun r => r.rid == mr.rid) (stampFulfilled offerId doc)
          st.requests ∧
      ∃ r', (claimOffer st offerId claimingId claimingName ts).1.requests.find?
          (fun r => r.rid == mr.rid) = some r' ∧
        r'.status = "fulfilled" ∧ r'.fulfilled_by_offer_id = some offerId ∧
        r'.fulfilled_by_startup_id = some doc.offering_startup_id ∧
        r'.fulfilled_by_startup_name = some doc.offering_startup_name ∧
        r'.requesting_startup_id = mr.requesting_startup_id ∧
        r'.topic = mr.topic) ∧
    (st.requests.find? (matchesPending claimingId doc.topic) = none →
      (claimOffer st offerId claimingId claimingName ts).1.requests =
        st.requests) := by
  constructor
  · intro mr hm
    have hreq : (claimOffer st offerId claimingId claimingName ts).1.requests =
        updateFirst (fun r => r.rid == mr.rid) (stampFulfilled offerId doc)
          st.requests := by
      rw [claimOffer_spec st offerId claimingId claimingName ts doc hdoc hself]
      simp [hm]
    refine ⟨hreq, ?_⟩
    have hmem := List.mem_of_find?_eq_some hm
    have hfind := find?_updateFirst_unique (q := fun r => r.rid == mr.rid)
      (f := stampFulfilled offerId doc) (fun _ => rfl) hmem (by simp)
      (fun y hy hyq =>
        eq_of_pairwise_ne_key SessionRequest.rid huniq hy hmem
          (by simpa using hyq))
    rw [hreq]
    exact ⟨stampFulfilled offerId doc mr, hfind, rfl, rfl, rfl, rfl, rfl, rfl⟩
  · intro hm
    rw [claimOffer_spec st offerId claimingId claimingName ts doc hdoc hself]
    simp [hm]

/-- Witness for C5: in the scenario store B's pending "Fundraising" request
is fulfilled and stamped with the offer's id and A's id/name when B claims
the offer. -/
theorem claim_C5_witness :
    ∃ r', (claimOffer storeScenario 10 1 "B" 7).1.requests.find?
        (fun r => r.rid == 20) = some r' ∧
      r'.status = "fulfilled" ∧ r'.fulfilled_by_offer_id = some 10 ∧
      r'.fulfilled_by_startup_id = some 0 ∧
      r'.fulfilled_by_startup_name = some "A" ∧
      r'.requesting_startup_id = 1 ∧ r'.topic = "Fundraising" :=
  ((claim_C5 storeScenario 10 1 "B" 7 availableOffer rfl (by decide)
      (by simp [storeScenario])).1 pendingReq (by decide)).2

/-- Claim C10: a successful ClaimOffer preserves, on every offer record, the
oid, topic, offering startup id/name and timestamp (so only status and the
claimed_by fields of the claimed offer can change; unclaimed offers are
untouched); and on every startup record it preserves sid, company,
`sessions_allotted_to_receive` and `sessions_lent`, leaving every startup
other than the claimant entirely unchanged — in particular the offering
startup's counters are untouched. -/
theorem claim_C10 (st : Store) (offerId claimingId : Nat) (claimingName : String)
    (ts : Nat) (doc : SessionOffer)
    (hdoc : st.offers.find? (fun o => o.oid == offerId) = some doc)
    (hself : doc.offering_startup_id ≠ claimingId) :
    List.Forall₂ (fun a b : SessionOffer => a.oid = b.oid ∧ a.topic = b.topic ∧
      a.offering_startup_id = b.offering_startup_id ∧
      a.offering_startup_name = b.offering_startup_name ∧
      a.timestamp = b.timestamp ∧ (a.oid ≠ offerId → a = b))
      st.offers (claimOffer st offerId claimingId claimingName ts).1.offers ∧
    List.Forall₂ (fun a b : Startup => a.sid = b.sid ∧ a.company = b.company ∧
      a.sessions_allotted_to_receive = b.sessions_allotted_to_receive ∧
      a.sessions_lent = b.sessions_lent ∧ (a.sid ≠ claimingId → a = b))
      st.startups (claimOffer st offerId claimingId claimingName ts).1.startups := by
  rw [claimOffer_spec st offerId claimingId claimingName ts doc hdoc hself]
  constructor
  · exact forall₂_updateFirst
      (fun x => ⟨rfl, rfl, rfl, rfl, rfl, fun _ => rfl⟩)
      (fun x hp => ⟨rfl, rfl, rfl, rfl, rfl,
        fun hne => absurd (by simpa using hp) hne⟩) _
  · exact forall₂_updateFirst
      (fun x => ⟨rfl, rfl, rfl, rfl, fun _ => rfl⟩)
      (fun x hp => ⟨rfl, rfl, rfl, rfl,
        fun hne => absurd (by simpa using hp) hne⟩) _

/-- Witness for C10: the frame conditions instantiated on the scenario store
when B (startup 1) claims offer 10. -/
theorem claim_C10_witness :
    List.Forall₂ (fun a b : SessionOffer => a.oid = b.oid ∧ a.topic = b.topic ∧
      a.offering_startup_id = b.offering_startup_id ∧
      a.offering_startup_name = b.offering_startup_name ∧
      a.timestamp = b.timestamp ∧ (a.oid ≠ 10 → a = b))
      storeScenario.offers (claimOffer storeScenario 10 1 "B" 7).1.offers ∧
    List.Forall₂ (fun a b : Startup => a.sid = b.sid ∧ a.company = b.company ∧
      a.sessions_allotted_to_receive = b.sessions_allotted_to_receive ∧
      a.sessions_lent = b.sessions_lent ∧ (a.sid ≠ 1 → a = b))
      storeScenario.startups (claimOffer storeScenario 10 1 "B" 7).1.startups :=
  claim_C10 storeScenario 10 1 "B" 7 availableOffer rfl (by decide)

/-- Each core operation either leaves the startup collection alone or
rewrites its first match under one of the three per-startup transformers. -/
theorem applyOp_startups (st : Store) (op : Op) :
    (applyOp st op).startups = st.startups ∨
    (∃ p, (applyOp st op).startups = updateFirst p backfillStartup st.startups) ∨
    (∃ p, (applyOp st op).startups = updateFirst p incLent st.startups) ∨
    (∃ p, (applyOp st op).startups = updateFirst p incReceived st.startups) := by
  cases op with
  | backfill sid =>
    cases hf : st.startups.find? (fun s => s.sid == sid) with
    | none => left; simp [applyOp, backfillW, hf]
    | some s0 =>
      cases hN : backfillNeeded s0 with
      | true =>
        right; left
        exact ⟨fun x => x.sid == sid, by simp [applyOp, backfillW, hf, hN]⟩
      | false => left; simp [applyOp, backfillW, hf, hN]
  | offer i n t oid ts =>
    cases hf : st.startups.find? (fun s => s.sid == i) with
    | none => left; simp [applyOp, createOffer, hf]
    | some s0 =>
      by_cases hc : s0.sessions_allotted_to_receive.getD 0 >
          s0.sessions_received.getD 0
      · right; right; left
        exact ⟨fun x => x.sid == i, by simp [applyOp, createOffer, hf, hc]⟩
      · left; simp [applyOp, createOffer, hf, hc]
  | request i n t rid ts => left; simp [applyOp, createRequest]
  | claim o c n ts =>
    cases hf : st.offers.find? (fun x => x.oid == o) with
    | none => left; simp [applyOp, claimOffer, hf]
    | some doc =>
      cases hb : doc.offering_startup_id == c with
      | true => left; simp [applyOp, claimOffer, hf, hb]
      | false =>
        right; right; right
        refine ⟨fun x => x.sid == c, ?_⟩
        simp only [applyOp, claimOffer, hf, hb, Bool.false_eq_true, if_false]
        cases hm : st.requests.find? (matchesPending c doc.topic) with
        | some mr => simp [hm]
        | none => simp [hm]

theorem countersOK_backfillStartup (s : Startup) (h : countersOK s = true) :
    countersOK (backfillStartup s) = true := by
  cases ha : s.sessions_allotted_to_receive <;>
    cases hr : s.sessions_received <;>
      cases hl : s.sessions_lent <;>
        simp_all [countersOK, counterNN, backfillStartup]

theorem countersOK_incLent (s : Startup) (h : countersOK s = true) :
    countersOK (incLent s) = true := by
  cases hl : s.sessions_lent <;>
    simp_all [countersOK, counterNN, incLent]
  all_goals omega

theorem countersOK_incReceived (s : Startup) (h : countersOK s = true) :
    countersOK (incReceived s) = true := by
  cases hr : s.sessions_received <;>
    simp_all [countersOK, counterNN, incReceived]
  all_goals omega

theorem countersOK_updateFirst {p : Startup → Bool} {f : Startup → Startup}
    (hf : ∀ x, countersOK x = true → countersOK (f x) = true) {l : List Startup}
    (h : ∀ s ∈ l, countersOK s = true) :
    ∀ s ∈ updateFirst p f l, countersOK s = true := by
  intro s hs
  rcases mem_updateFirst hs with hmem | ⟨x, hx, rfl⟩
  · exact h s hmem
  · exact hf x (h x hx)

theorem presMono_refl (x : Startup) : presMono x x :=
  ⟨rfl, id, id, id⟩

theorem presMono_trans (a b c : Startup) (h1 : presMono a b) (h2 : presMono b c) :
    presMono a c :=
  ⟨h1.1.trans h2.1, fun h => h2.2.1 (h1.2.1 h), fun h => h2.2.2.1 (h1.2.2.1 h),
    fun h => h2.2.2.2 (h1.2.2.2 h)⟩

theorem presMono_backfillStartup (x : Startup) : presMono x (backfillStartup x) :=
  ⟨rfl, fun _ => rfl, fun _ => rfl, fun _ => rfl⟩

theorem presMono_incLent (x : Startup) : presMono x (incLent x) :=
  ⟨rfl, id, id, fun _ => rfl⟩

theorem presMono_incReceived (x : Startup) : presMono x (incReceived x) :=
  ⟨rfl, id, fun _ => rfl, id⟩

theorem countersOK_applyOp (st : Store) (op : Op)
    (h : ∀ s ∈ st.startups, countersOK s = true) :
    ∀ s ∈ (applyOp st op).startups, countersOK s = true := by
  rcases applyOp_startups st op with he | ⟨p, he⟩ | ⟨p, he⟩ | ⟨p, he⟩ <;> rw [he]
  · exact h
  · exact countersOK_updateFirst countersOK_backfillStartup h
  · exact countersOK_updateFirst countersOK_incLent h
  · exact countersOK_updateFirst countersOK_incReceived h

theorem presMono_applyOp (st : Store) (op : Op) :
    List.Forall₂ presMono st.startups (applyOp st op).startups := by
  rcases applyOp_startups st op with he | ⟨p, he⟩ | ⟨p, he⟩ | ⟨p, he⟩ <;> rw [he]
  · exact forall₂_self presMono_refl _
  · exact forall₂_updateFirst presMono_refl (fun x _ => presMono_backfillStartup x) _
  · exact forall₂_updateFirst presMono_refl (fun x _ => presMono_incLent x) _
  · exact forall₂_updateFirst presMono_refl (fun x _ => presMono_incReceived x) _

/-- Counterexample to Claim C8 as stated: starting from `storeFresh`, whose
startup record carries none of the three counter fields, the operation
sequence consisting of one CreateRequest leaves all three fields still
absent — so "after any sequence of the core operations the three counters
are present" fails. -/
theorem claim_C8_counterexample :
    ¬ ∀ s ∈ (applyOps storeFresh [Op.request 2 "C" "T" 30 0]).startups,
        s.sessions_allotted_to_receive.isSome ∧ s.sessions_received.isSome ∧
          s.sessions_lent.isSome := by
  decide

/-- Claim C8 (amended): after any sequence of the core operations (backfill,
CreateOffer, CreateRequest, ClaimOffer), every counter field that is present
on a startup record is ≥ 0 provided every initially present counter was ≥ 0
(no operation ever decrements a counter), and no operation removes a present
counter field or changes a startup's id — but presence of all three fields is
only established by a backfill of that startup, not by an arbitrary
sequence. -/
theorem claim_C8 (st : Store) (ops : List Op)
    (h : ∀ s ∈ st.startups, countersOK s = true) :
    (∀ s ∈ (applyOps st ops).startups, countersOK s = true) ∧
    List.Forall₂ presMono st.startups (applyOps st ops).startups := by
  induction ops generalizing st with
  | nil => exact ⟨h, forall₂_self presMono_refl _⟩
  | cons op ops ih =>
    have h1 := countersOK_applyOp st op h
    have hrec := ih (applyOp st op) h1
    have hstep : applyOps st (op :: ops) = applyOps (applyOp st op) ops := rfl
    rw [hstep]
    exact ⟨hrec.1, forall₂_comp presMono_trans (presMono_applyOp st op) hrec.2⟩

/-- Witness for the amended C8: the scenario store (all counters present and
non-negative) keeps non-negative present counters through a claim followed by
an offer creation and a backfill. -/
theorem claim_C8_witness :
    (∀ s ∈ (applyOps storeScenario
        [Op.claim 10 1 "B" 7, Op.offer 0 "A" "Legal" 11 8,
          Op.backfill 1]).startups, countersOK s = true) ∧
    List.Forall₂ presMono storeScenario.startups
      (applyOps storeScenario
        [Op.claim 10 1 "B" 7, Op.offer 0 "A" "Legal" 11 8,
          Op.backfill 1]).startups :=
  claim_C8 storeScenario
    [Op.claim 10 1 "B" 7, Op.offer 0 "A" "Legal" 11 8, Op.backfill 1]
    (by decide)
